import Mathlib

/-!
Shallow embedding of `pingdom/tms_check.go` from go-pingdom: the TMS check
data model, its client-side validation, the JSON body projection used by
Create/Update, the report-request validation and query-parameter mapping,
and the control flow of the service operations.

Go `int` is modelled as `Int`, `*time.Time` as `Option Int` (an instant;
`time.Time.Before` is strict `<` on instants), Go string-typed enums
(`Order`, `Resolution`) as `String`, and Go maps as association lists.
-/

/-- A step of a TMS check (`TmsStep` in tms_check.go): a function name plus
a mapping of named string arguments (the Go `map[string]string` is modelled
as an association list). -/
structure TmsStep where
  Function : String
  Args : List (String × String)
deriving Repr, DecidableEq

/-- The TMS check struct (`TmsCheck` in tms_check.go). -/
structure TmsCheck where
  ID : Int
  Name : String
  Steps : List TmsStep
  Active : Bool
  ContactIds : List Int
  CustomMessage : String
  IntegrationIds : List Int
  Interval : Int
  Region : String
  SendNotificationWhenDown : Int
  SeverityLevel : String
  Tags : String
  TeamIds : List Int
deriving Repr, DecidableEq

/-- The constraint violations reported by the `Valid` methods of
tms_check.go; each constructor stands for one of the `fmt.Errorf` messages,
carrying the offending value where the message formats one. -/
inductive TmsError where
  | invalidName : TmsError
  | invalidRegion : String → TmsError
  | invalidSeverity : String → TmsError
  | invalidInterval : Int → TmsError
  | invalidDateRange : TmsError
  | invalidOffset : TmsError
  | invalidLimit : TmsError
  | invalidOrder : String → TmsError
  | invalidResolution : String → TmsError
deriving Repr, DecidableEq

/-- `(*TmsCheck).Valid` (tms_check.go lines 89-107): name non-empty, region,
severity and interval each drawn from a fixed enumerated set, checked in
that order; `none` means the Go method returned `nil`. -/
def TmsCheck.Valid (ts : TmsCheck) : Option TmsError :=
  if ts.Name = "" then
    some TmsError.invalidName
  else if ts.Region ≠ "us-east" ∧ ts.Region ≠ "us-west" ∧ ts.Region ≠ "eu" ∧ ts.Region ≠ "au" then
    some (TmsError.invalidRegion ts.Region)
  else if ts.SeverityLevel ≠ "high" ∧ ts.SeverityLevel ≠ "low" then
    some (TmsError.invalidSeverity ts.SeverityLevel)
  else if ts.Interval ≠ 5 ∧ ts.Interval ≠ 10 ∧ ts.Interval ≠ 20 ∧ ts.Interval ≠ 60 ∧ ts.Interval ≠ 720 ∧ ts.Interval ≠ 1440 then
    some (TmsError.invalidInterval ts.Interval)
  else
    none

/-- C1: For every TmsCheck value, Valid() returns no error if and only if
Name is a non-empty string, Region is one of us-east/us-west/eu/au,
SeverityLevel is one of high/low, and Interval is one of
5,10,20,60,720,1440. -/
theorem tmsCheck_valid_iff (ts : TmsCheck) :
    ts.Valid = none ↔
      (ts.Name ≠ "" ∧
       (ts.Region = "us-east" ∨ ts.Region = "us-west" ∨ ts.Region = "eu" ∨ ts.Region = "au") ∧
       (ts.SeverityLevel = "high" ∨ ts.SeverityLevel = "low") ∧
       (ts.Interval = 5 ∨ ts.Interval = 10 ∨ ts.Interval = 20 ∨ ts.Interval = 60 ∨
        ts.Interval = 720 ∨ ts.Interval = 1440)) := by
  unfold TmsCheck.Valid
  split_ifs with h1 h2 h3 h4 <;> simp_all
  tauto

/-- Go `strings.Split(s, ",")` on the character list of `s`: split around
every comma; on the empty string the result is one empty segment (Go returns
`[""]`), and in general one segment per comma-separated run. -/
def goSplitComma : List Char → List (List Char)
  | [] => [[]]
  | c :: rest =>
    let r := goSplitComma rest
    if c = ',' then [] :: r
    else (c :: r.headD []) :: r.tail

/-- Go `strings.TrimSpace`: drop leading and trailing whitespace characters
(the claims only exercise ASCII whitespace, which `Char.isWhitespace`
covers). -/
def goTrimSpace (l : List Char) : List Char :=
  ((l.dropWhile Char.isWhitespace).reverse.dropWhile Char.isWhitespace).reverse

/-- The tags loop of `RenderForJSONAPI` (tms_check.go lines 111-114): split
the comma-joined `Tags` string on commas and trim each segment. -/
def renderTags (tags : String) : List String :=
  (goSplitComma tags.data).map fun seg => String.mk (goTrimSpace seg)

/-- A JSON value as it appears in the body map built by `RenderForJSONAPI`:
each entry of the Go `map[string]interface{}` holds one of these shapes. -/
inductive Jval where
  | str : String → Jval
  | int : Int → Jval
  | bool : Bool → Jval
  | strList : List String → Jval
  | intList : List Int → Jval
  | steps : List TmsStep → Jval
deriving Repr, DecidableEq

/-- `(*TmsCheck).RenderForJSONAPI` (tms_check.go lines 110-133), modelled as
the key/value entries of the marshalled JSON body.  The Go code builds a
`map[string]interface{}` with exactly these twelve entries unconditionally
and marshals it; marshalling a map emits every entry (the struct's
`omitempty` tags play no part here). -/
def TmsCheck.RenderForJSONAPI (ts : TmsCheck) : List (String × Jval) :=
  [("name", Jval.str ts.Name),
   ("steps", Jval.steps ts.Steps),
   ("active", Jval.bool ts.Active),
   ("contact_ids", Jval.intList ts.ContactIds),
   ("custom_message", Jval.str ts.CustomMessage),
   ("integration_ids", Jval.intList ts.IntegrationIds),
   ("interval", Jval.int ts.Interval),
   ("region", Jval.str ts.Region),
   ("severity_level", Jval.str ts.SeverityLevel),
   ("send_notification_when_down", Jval.int ts.SendNotificationWhenDown),
   ("tags", Jval.strList (renderTags ts.Tags)),
   ("team_ids", Jval.intList ts.TeamIds)]

/-- The wire response struct consumed by `fromTmsCheckResponse`
(tms_check.go lines 330-348); its fields are read off that function: the
same fields as `TmsCheck`, except that `Tags` arrives as a list of
strings. -/
structure TmsCheckResponse where
  ID : Int
  Name : String
  Steps : List TmsStep
  Active : Bool
  ContactIds : List Int
  CustomMessage : String
  IntegrationIds : List Int
  Interval : Int
  Region : String
  SendNotificationWhenDown : Int
  SeverityLevel : String
  Tags : List String
  TeamIds : List Int
deriving Repr, DecidableEq

/-- `fromTmsCheckResponse` (tms_check.go lines 330-348): copy every field
verbatim, except `Tags`, which is comma-joined (`strings.Join(cr.Tags, ",")`). -/
def fromTmsCheckResponse (cr : TmsCheckResponse) : TmsCheck :=
  { ID := cr.ID
    Name := cr.Name
    Steps := cr.Steps
    Active := cr.Active
    ContactIds := cr.ContactIds
    CustomMessage := cr.CustomMessage
    IntegrationIds := cr.IntegrationIds
    Interval := cr.Interval
    Region := cr.Region
    SendNotificationWhenDown := cr.SendNotificationWhenDown
    SeverityLevel := cr.SeverityLevel
    Tags := String.intercalate "," cr.Tags
    TeamIds := cr.TeamIds }

/-- Read the string stored under key `k` of a rendered JSON body. -/
def wireStr (body : List (String × Jval)) (k : String) : String :=
  match body.lookup k with
  | some (Jval.str s) => s
  | _ => ""

/-- Read the integer stored under key `k` of a rendered JSON body. -/
def wireInt (body : List (String × Jval)) (k : String) : Int :=
  match body.lookup k with
  | some (Jval.int i) => i
  | _ => 0

/-- Read the boolean stored under key `k` of a rendered JSON body. -/
def wireBool (body : List (String × Jval)) (k : String) : Bool :=
  match body.lookup k with
  | some (Jval.bool b) => b
  | _ => false

/-- Read the string list stored under key `k` of a rendered JSON body. -/
def wireStrList (body : List (String × Jval)) (k : String) : List String :=
  match body.lookup k with
  | some (Jval.strList l) => l
  | _ => []

/-- Read the integer list stored under key `k` of a rendered JSON body. -/
def wireIntList (body : List (String × Jval)) (k : String) : List Int :=
  match body.lookup k with
  | some (Jval.int i) => [i]
  | some (Jval.intList l) => l
  | _ => []

/-- Read the step list stored under key `k` of a rendered JSON body. -/
def wireSteps (body : List (String × Jval)) (k : String) : List TmsStep :=
  match body.lookup k with
  | some (Jval.steps l) => l
  | _ => []

/-- The synthetic wire response corresponding to a rendered check: each
response field is the value the rendered JSON body carries under the
corresponding wire key (the body carries no `id`; the server echoes it, so
the check's own `ID` is used). -/
def syntheticResponse (ts : TmsCheck) : TmsCheckResponse :=
  let b := ts.RenderForJSONAPI
  { ID := ts.ID
    Name := wireStr b "name"
    Steps := wireSteps b "steps"
    Active := wireBool b "active"
    ContactIds := wireIntList b "contact_ids"
    CustomMessage := wireStr b "custom_message"
    IntegrationIds := wireIntList b "integration_ids"
    Interval := wireInt b "interval"
    Region := wireStr b "region"
    SendNotificationWhenDown := wireInt b "send_notification_when_down"
    SeverityLevel := wireStr b "severity_level"
    Tags := wireStrList b "tags"
    TeamIds := wireIntList b "team_ids" }

theorem goSplitComma_ne_nil (l : List Char) : goSplitComma l ≠ [] := by
  cases l with
  | nil => simp [goSplitComma]
  | cons c rest => simp only [goSplitComma]; split <;> simp

theorem goSplitComma_length (l : List Char) :
    (goSplitComma l).length = l.count ',' + 1 := by
  induction l with
  | nil => rfl
  | cons c rest ih =>
    simp only [goSplitComma]
    by_cases hc : c = ','
    · simp [hc, List.count_cons, ih]
    · obtain ⟨h, t, hr⟩ := List.exists_cons_of_ne_nil (goSplitComma_ne_nil rest)
      rw [hr] at ih
      simp only [List.length_cons] at ih
      simp [hc, hr, List.count_cons]
      omega

/-- C5: rendering a check for the wire and mapping the corresponding
synthetic response back through `fromTmsCheckResponse` preserves Steps,
Name, Region, SeverityLevel and Interval; the comma-joined tags input
`"a, b,c"` renders as the wire list `["a","b","c"]`, which rejoins as
`"a,b,c"`. -/
theorem tms_render_roundtrip (ts : TmsCheck) :
    (fromTmsCheckResponse (syntheticResponse ts)).Steps = ts.Steps ∧
    (fromTmsCheckResponse (syntheticResponse ts)).Name = ts.Name ∧
    (fromTmsCheckResponse (syntheticResponse ts)).Region = ts.Region ∧
    (fromTmsCheckResponse (syntheticResponse ts)).SeverityLevel = ts.SeverityLevel ∧
    (fromTmsCheckResponse (syntheticResponse ts)).Interval = ts.Interval ∧
    renderTags "a, b,c" = ["a", "b", "c"] ∧
    String.intercalate "," ["a", "b", "c"] = "a,b,c" :=
  ⟨rfl, rfl, rfl, rfl, rfl, by decide, by decide⟩

/-- A check whose optional fields all hold their zero values. -/
def zeroOptionalCheck : TmsCheck :=
  { ID := 0
    Name := "n"
    Steps := []
    Active := true
    ContactIds := []
    CustomMessage := ""
    IntegrationIds := []
    Interval := 0
    Region := ""
    SendNotificationWhenDown := 0
    SeverityLevel := ""
    Tags := ""
    TeamIds := [] }

/-- C2, counterexample: on a check whose optional fields all hold their zero
values, the rendered body still carries every one of their keys — nothing is
dropped, contradicting the per-field omit-if-empty claim. -/
theorem render_zero_fields_not_dropped :
    "contact_ids" ∈ zeroOptionalCheck.RenderForJSONAPI.map Prod.fst ∧
    "custom_message" ∈ zeroOptionalCheck.RenderForJSONAPI.map Prod.fst ∧
    "integration_ids" ∈ zeroOptionalCheck.RenderForJSONAPI.map Prod.fst ∧
    "interval" ∈ zeroOptionalCheck.RenderForJSONAPI.map Prod.fst ∧
    "region" ∈ zeroOptionalCheck.RenderForJSONAPI.map Prod.fst ∧
    "send_notification_when_down" ∈ zeroOptionalCheck.RenderForJSONAPI.map Prod.fst ∧
    "severity_level" ∈ zeroOptionalCheck.RenderForJSONAPI.map Prod.fst ∧
    "team_ids" ∈ zeroOptionalCheck.RenderForJSONAPI.map Prod.fst := by
  decide

/-- C2, amended: the body produced for Create and Update always carries
exactly the same twelve keys, whatever the field values — optional fields
are never omitted; in particular name, steps and active are always
present. -/
theorem render_emits_fixed_keys (ts : TmsCheck) :
    ts.RenderForJSONAPI.map Prod.fst =
      ["name", "steps", "active", "contact_ids", "custom_message",
       "integration_ids", "interval", "region", "severity_level",
       "send_notification_when_down", "tags", "team_ids"] := rfl

/-- C10: the rendered body's `tags` field is the split-and-trimmed `Tags`
string; that list has one element per comma-separated segment (number of
commas plus one), and the empty `Tags` string renders as the one-element
list containing the empty string, never as an empty list. -/
theorem render_tags_segment_count (ts : TmsCheck) :
    ("tags", Jval.strList (renderTags ts.Tags)) ∈ ts.RenderForJSONAPI ∧
    (renderTags ts.Tags).length = ts.Tags.data.count ',' + 1 ∧
    renderTags "" = [""] := by
  refine ⟨by simp [TmsCheck.RenderForJSONAPI], ?_, by decide⟩
  simp [renderTags, goSplitComma_length]

/-- `TmsStatusReportListByIdRequest` (tms_check.go lines 50-54).  The Go
`*time.Time` fields become optional instants (`Option Int`, `Before` being
strict `<`); the Go string type `Order` becomes `String`. -/
structure TmsStatusReportListByIdRequest where
  From : Option Int
  To : Option Int
  Order : String
deriving Repr, DecidableEq

/-- `TmsStatusReportListRequest` (tms_check.go lines 55-62). -/
structure TmsStatusReportListRequest where
  From : Option Int
  To : Option Int
  Order : String
  Limit : Option Int
  Offset : Option Int
  OmitEmpty : Bool
deriving Repr, DecidableEq

/-- `TmsPerformanceReportRequest` (tms_check.go lines 63-69); the Go string
type `Resolution` becomes `String`. -/
structure TmsPerformanceReportRequest where
  From : Option Int
  To : Option Int
  Order : String
  IncludeUptime : Bool
  Resolution : String
deriving Repr, DecidableEq

/-- The date-range guard shared by the three `Valid` methods:
`tr.To != nil && tr.From != nil && tr.To.Before(*tr.From)`
(`time.Time.Before` is strict precedence on instants). -/
def dateRangeBad (fromTime toTime : Option Int) : Bool :=
  match toTime, fromTime with
  | some t, some f => decide (t < f)
  | _, _ => false

/-- The pagination guard `tr.Offset != nil && *tr.Offset < 0`. -/
def offsetBad (x : Option Int) : Bool :=
  match x with
  | some o => decide (o < 0)
  | none => false

/-- The pagination guard `tr.Limit != nil && *tr.Limit <= 0`. -/
def limitBad (x : Option Int) : Bool :=
  match x with
  | some l => decide (l ≤ 0)
  | none => false

/-- Stand-in for the Go standard library's `t.Format(time.RFC3339)`: no
claim inspects the rendered text of a timestamp, only which keys are
emitted, so the instant is rendered by its integer value. -/
def formatRFC3339 (t : Int) : String := toString t

/-- `(*TmsStatusReportListByIdRequest).Valid` (tms_check.go lines 135-147):
date-range guard, then the `Order` switch admitting desc, asc and the empty
string. -/
def TmsStatusReportListByIdRequest.Valid (tr : TmsStatusReportListByIdRequest) :
    Option TmsError :=
  if dateRangeBad tr.From tr.To then some TmsError.invalidDateRange
  else if tr.Order = "desc" ∨ tr.Order = "asc" ∨ tr.Order = "" then none
  else some (TmsError.invalidOrder tr.Order)

/-- `(*TmsStatusReportListByIdRequest).GetParams` (tms_check.go lines
148-164): conditional inserts into a string map, modelled as concatenated
optional entries. -/
def TmsStatusReportListByIdRequest.GetParams (tr : TmsStatusReportListByIdRequest) :
    List (String × String) :=
  (match tr.From with | some t => [("from", formatRFC3339 t)] | none => [])
  ++ (match tr.To with | some t => [("to", formatRFC3339 t)] | none => [])
  ++ (if tr.Order = "" then [] else [("order", tr.Order)])

/-- `(*TmsStatusReportListRequest).Valid` (tms_check.go lines 165-183):
date-range guard, offset and limit bounds, then the `Order` switch. -/
def TmsStatusReportListRequest.Valid (tr : TmsStatusReportListRequest) :
    Option TmsError :=
  if dateRangeBad tr.From tr.To then some TmsError.invalidDateRange
  else if offsetBad tr.Offset then some TmsError.invalidOffset
  else if limitBad tr.Limit then some TmsError.invalidLimit
  else if tr.Order = "desc" ∨ tr.Order = "asc" ∨ tr.Order = "" then none
  else some (TmsError.invalidOrder tr.Order)

/-- `(*TmsStatusReportListRequest).GetParams` (tms_check.go lines 184-213);
`offset`/`limit` render through `strconv.Itoa`, and `omit_empty` is inserted
only when the flag is set, always as the literal `"true"`. -/
def TmsStatusReportListRequest.GetParams (tr : TmsStatusReportListRequest) :
    List (String × String) :=
  (match tr.From with | some t => [("from", formatRFC3339 t)] | none => [])
  ++ (match tr.To with | some t => [("to", formatRFC3339 t)] | none => [])
  ++ (match tr.Offset with | some o => [("offset", toString o)] | none => [])
  ++ (match tr.Limit with | some l => [("limit", toString l)] | none => [])
  ++ (if tr.Order = "" then [] else [("order", tr.Order)])
  ++ (if tr.OmitEmpty then [("omit_empty", "true")] else [])

/-- `(*TmsPerformanceReportRequest).Valid` (tms_check.go lines 214-231):
date-range guard, the `Order` switch, then the `Resolution` switch
admitting hour, day, week and the empty string. -/
def TmsPerformanceReportRequest.Valid (tr : TmsPerformanceReportRequest) :
    Option TmsError :=
  if dateRangeBad tr.From tr.To then some TmsError.invalidDateRange
  else if tr.Order = "desc" ∨ tr.Order = "asc" ∨ tr.Order = "" then
    if tr.Resolution = "hour" ∨ tr.Resolution = "day" ∨ tr.Resolution = "week" ∨ tr.Resolution = "" then
      none
    else some (TmsError.invalidResolution tr.Resolution)
  else some (TmsError.invalidOrder tr.Order)

/-- `(*TmsPerformanceReportRequest).GetParams` (tms_check.go lines 232-257);
`include_uptime` is inserted only when the flag is set, always as the
literal `"true"`. -/
def TmsPerformanceReportRequest.GetParams (tr : TmsPerformanceReportRequest) :
    List (String × String) :=
  (match tr.From with | some t => [("from", formatRFC3339 t)] | none => [])
  ++ (match tr.To with | some t => [("to", formatRFC3339 t)] | none => [])
  ++ (if tr.Order = "" then [] else [("order", tr.Order)])
  ++ (if tr.IncludeUptime then [("include_uptime", "true")] else [])
  ++ (if tr.Resolution = "" then [] else [("resolution", tr.Resolution)])

/-- The performance-report request with every field unset. -/
def emptyPerfRequest : TmsPerformanceReportRequest :=
  { From := none, To := none, Order := "", IncludeUptime := false, Resolution := "" }

/-- C6, counterexample: the empty Resolution is not one of hour/day/week,
yet Valid() succeeds on the request that carries it — the claim's
Resolution clause does not hold as stated. -/
theorem perf_valid_accepts_empty_resolution :
    emptyPerfRequest.Valid = none ∧
    ¬(emptyPerfRequest.Resolution = "hour" ∨ emptyPerfRequest.Resolution = "day" ∨
      emptyPerfRequest.Resolution = "week") := by
  decide

/-- C6, amended: Valid() fails for any Resolution outside
hour/day/week/"" (the empty string is also admitted), and for any Order
outside asc/desc/"". -/
theorem perf_valid_enum_guards (tr : TmsPerformanceReportRequest) :
    (¬(tr.Resolution = "hour" ∨ tr.Resolution = "day" ∨ tr.Resolution = "week" ∨
       tr.Resolution = "") → tr.Valid ≠ none) ∧
    (¬(tr.Order = "asc" ∨ tr.Order = "desc" ∨ tr.Order = "") → tr.Valid ≠ none) := by
  unfold TmsPerformanceReportRequest.Valid
  constructor <;> intro h <;> split_ifs <;> simp_all

/-- Witness for `perf_valid_enum_guards`: a request with Resolution "year"
and one with Order "sideways" both fail validation. -/
theorem perf_valid_enum_guards_witness :
    ({ From := none, To := none, Order := "", IncludeUptime := false,
       Resolution := "year" } : TmsPerformanceReportRequest).Valid ≠ none ∧
    ({ From := none, To := none, Order := "sideways", IncludeUptime := false,
       Resolution := "" } : TmsPerformanceReportRequest).Valid ≠ none :=
  ⟨(perf_valid_enum_guards _).1 (by decide), (perf_valid_enum_guards _).2 (by decide)⟩

/-- C8: for each of the three report-request variants, when both From and To
are set and every other field holds a valid value, Valid() fails exactly
when To is strictly before From. -/
theorem report_valid_iff_range_ok (rb : TmsStatusReportListByIdRequest)
    (rl : TmsStatusReportListRequest) (rp : TmsPerformanceReportRequest)
    (fb tb fl tl fp tp : Int)
    (hb1 : rb.From = some fb) (hb2 : rb.To = some tb)
    (hb3 : rb.Order = "asc" ∨ rb.Order = "desc" ∨ rb.Order = "")
    (hl1 : rl.From = some fl) (hl2 : rl.To = some tl)
    (hl3 : rl.Order = "asc" ∨ rl.Order = "desc" ∨ rl.Order = "")
    (hl4 : ∀ o, rl.Offset = some o → 0 ≤ o)
    (hl5 : ∀ l, rl.Limit = some l → 0 < l)
    (hp1 : rp.From = some fp) (hp2 : rp.To = some tp)
    (hp3 : rp.Order = "asc" ∨ rp.Order = "desc" ∨ rp.Order = "")
    (hp4 : rp.Resolution = "hour" ∨ rp.Resolution = "day" ∨ rp.Resolution = "week" ∨
           rp.Resolution = "") :
    (rb.Valid ≠ none ↔ tb < fb) ∧ (rl.Valid ≠ none ↔ tl < fl) ∧
    (rp.Valid ≠ none ↔ tp < fp) := by
  refine ⟨?_, ?_, ?_⟩
  · unfold TmsStatusReportListByIdRequest.Valid
    by_cases h : tb < fb <;>
      rcases hb3 with h3 | h3 | h3 <;>
        simp [dateRangeBad, hb1, hb2, h3, h]
  · unfold TmsStatusReportListRequest.Valid
    have ho : offsetBad rl.Offset = false := by
      cases hoff : rl.Offset with
      | none => simp [offsetBad]
      | some o =>
        have := hl4 o hoff
        simp only [offsetBad, decide_eq_false_iff_not, not_lt]
        omega
    have hlim : limitBad rl.Limit = false := by
      cases hlm : rl.Limit with
      | none => simp [limitBad]
      | some l =>
        have := hl5 l hlm
        simp only [limitBad, decide_eq_false_iff_not, not_le]
        omega
    by_cases h : tl < fl <;>
      rcases hl3 with h3 | h3 | h3 <;>
        simp [dateRangeBad, hl1, hl2, h3, h, ho, hlim]
  · unfold TmsPerformanceReportRequest.Valid
    by_cases h : tp < fp <;>
      rcases hp3 with h3 | h3 | h3 <;>
        rcases hp4 with h4 | h4 | h4 | h4 <;>
          simp [dateRangeBad, hp1, hp2, h3, h4, h]

/-- Witness for `report_valid_iff_range_ok`: concrete requests with
From = 5 and To = 3 (To strictly before From) in all three variants. -/
theorem report_valid_iff_range_ok_witness :
    (({ From := some 5, To := some 3, Order := "asc" } :
        TmsStatusReportListByIdRequest).Valid ≠ none ↔ (3 : Int) < 5) ∧
    (({ From := some 5, To := some 3, Order := "desc", Limit := some 2,
        Offset := some 0, OmitEmpty := false } :
        TmsStatusReportListRequest).Valid ≠ none ↔ (3 : Int) < 5) ∧
    (({ From := some 5, To := some 3, Order := "", IncludeUptime := true,
        Resolution := "hour" } : TmsPerformanceReportRequest).Valid ≠ none ↔ (3 : Int) < 5) :=
  report_valid_iff_range_ok _ _ _ 5 3 5 3 5 3 rfl rfl (by decide) rfl rfl (by decide)
    (by intro o h; cases h; omega) (by intro l h; cases h; omega)
    rfl rfl (by decide) (by decide)

/-- C9: whenever Limit is set nonpositive or Offset is set negative,
Valid() fails, and with the other fields valid it succeeds at Limit = 1,
Offset = 0. -/
theorem status_list_valid_pagination (rl : TmsStatusReportListRequest) :
    (∀ l, rl.Limit = some l → l ≤ 0 → rl.Valid ≠ none) ∧
    (∀ o, rl.Offset = some o → o < 0 → rl.Valid ≠ none) ∧
    (dateRangeBad rl.From rl.To = false →
     (rl.Order = "asc" ∨ rl.Order = "desc" ∨ rl.Order = "") →
     rl.Limit = some 1 → rl.Offset = some 0 → rl.Valid = none) := by
  refine ⟨?_, ?_, ?_⟩
  · intro l hl hle
    unfold TmsStatusReportListRequest.Valid
    split_ifs <;> simp_all [limitBad]
  · intro o hoff hneg
    unfold TmsStatusReportListRequest.Valid
    split_ifs <;> simp_all [offsetBad]
  · intro hd hord hl hoff
    unfold TmsStatusReportListRequest.Valid
    rcases hord with h3 | h3 | h3 <;>
      simp [hd, hl, hoff, h3, offsetBad, limitBad]

/-- Witness for `status_list_valid_pagination`: Limit = 0 and Offset = -1
each fail validation, and Limit = 1 with Offset = 0 passes. -/
theorem status_list_valid_pagination_witness :
    ({ From := none, To := none, Order := "", Limit := some 0, Offset := none,
       OmitEmpty := false } : TmsStatusReportListRequest).Valid ≠ none ∧
    ({ From := none, To := none, Order := "", Limit := none, Offset := some (-1),
       OmitEmpty := false } : TmsStatusReportListRequest).Valid ≠ none ∧
    ({ From := none, To := none, Order := "", Limit := some 1, Offset := some 0,
       OmitEmpty := false } : TmsStatusReportListRequest).Valid = none :=
  ⟨(status_list_valid_pagination _).1 0 rfl (by decide),
   (status_list_valid_pagination _).2.1 (-1) rfl (by decide),
   (status_list_valid_pagination _).2.2 (by decide) (by decide) rfl rfl⟩

/-- An HTTP request issued through the client collaborator: method, path,
the JSON body handed to `NewJSONRequest` (when any), and the query
parameters handed to `NewRequest`. -/
structure Call where
  method : String
  path : String
  body : Option (List (String × Jval))
  params : List (String × String)
deriving Repr, DecidableEq

/-- Errors surfaced by the service operations: `validation` wraps the error
a `Valid` method returned before any request was made; `transport` wraps an
error coming back through the HTTP client collaborator (network failure,
non-2xx response, or envelope decode failure on the Do path). -/
inductive OpError where
  | validation : TmsError → OpError
  | transport : String → OpError
deriving Repr, DecidableEq

/-- `(*TmsCheckService).Create` (tms_check.go lines 295-312), with the HTTP
client collaborator abstracted as `net`: it maps the one call the code can
make to either an error or the decoded detail response; the result is
paired with the list of calls actually issued.  Modelled from the spec: the
collaborator's request building (`NewJSONRequest`) does not fail on its
own, and `Do` both performs the request and decodes the envelope. -/
def tmsCreate (net : Call → Except String TmsCheckResponse) (check : TmsCheck) :
    Except OpError TmsCheck × List Call :=
  match check.Valid with
  | some e => (Except.error (OpError.validation e), [])
  | none =>
    let c : Call := { method := "POST", path := "/tms/check",
                      body := some check.RenderForJSONAPI, params := [] }
    match net c with
    | Except.error e => (Except.error (OpError.transport e), [c])
    | Except.ok m => (Except.ok (fromTmsCheckResponse m), [c])

/-- `(*TmsCheckService).Update` (tms_check.go lines 353-369): validate, then
one PUT to the item path with the full rendered body. -/
def tmsUpdate (net : Call → Except String TmsCheckResponse) (id : Int)
    (tmsCheck : TmsCheck) : Except OpError TmsCheck × List Call :=
  match tmsCheck.Valid with
  | some e => (Except.error (OpError.validation e), [])
  | none =>
    let c : Call := { method := "PUT", path := "/tms/check/" ++ toString id,
                      body := some tmsCheck.RenderForJSONAPI, params := [] }
    match net c with
    | Except.error e => (Except.error (OpError.transport e), [c])
    | Except.ok m => (Except.ok (fromTmsCheckResponse m), [c])

/-- `(*TmsCheckService).StatusReportList` (tms_check.go lines 387-402):
validate, then one GET to the report path with the request's parameter
mapping.  The report payload type is opaque to this code, so the decoded
response is a type parameter. -/
def tmsStatusReportList {R : Type} (net : Call → Except String R)
    (request : TmsStatusReportListRequest) : Except OpError R × List Call :=
  match request.Valid with
  | some e => (Except.error (OpError.validation e), [])
  | none =>
    let c : Call := { method := "GET", path := "/tms/check/report/status",
                      body := none, params := request.GetParams }
    match net c with
    | Except.error e => (Except.error (OpError.transport e), [c])
    | Except.ok m => (Except.ok m, [c])

/-- `(*TmsCheckService).StatusReportById` (tms_check.go lines 405-420). -/
def tmsStatusReportById {R : Type} (net : Call → Except String R) (id : Int)
    (request : TmsStatusReportListByIdRequest) : Except OpError R × List Call :=
  match request.Valid with
  | some e => (Except.error (OpError.validation e), [])
  | none =>
    let c : Call := { method := "GET",
                      path := "/tms/check/" ++ toString id ++ "/report/status",
                      body := none, params := request.GetParams }
    match net c with
    | Except.error e => (Except.error (OpError.transport e), [c])
    | Except.ok m => (Except.ok m, [c])

/-- `(*TmsCheckService).PerformanceReport` (tms_check.go lines 423-438). -/
def tmsPerformanceReport {R : Type} (net : Call → Except String R) (id : Int)
    (request : TmsPerformanceReportRequest) : Except OpError R × List Call :=
  match request.Valid with
  | some e => (Except.error (OpError.validation e), [])
  | none =>
    let c : Call := { method := "GET",
                      path := "/tms/check/" ++ toString id ++ "/report/performance",
                      body := none, params := request.GetParams }
    match net c with
    | Except.error e => (Except.error (OpError.transport e), [c])
    | Except.ok m => (Except.ok m, [c])

/-- C3: every operation that takes a validated value returns the validation
error with an empty call trace when Valid() fails — no request is built or
issued. -/
theorem validation_short_circuits {R : Type}
    (netC netU : Call → Except String TmsCheckResponse)
    (netL netB netP : Call → Except String R)
    (check check2 : TmsCheck) (id id2 id3 : Int)
    (rl : TmsStatusReportListRequest) (rb : TmsStatusReportListByIdRequest)
    (rp : TmsPerformanceReportRequest)
    (e1 e2 e3 e4 e5 : TmsError)
    (h1 : check.Valid = some e1) (h2 : check2.Valid = some e2)
    (h3 : rl.Valid = some e3) (h4 : rb.Valid = some e4) (h5 : rp.Valid = some e5) :
    tmsCreate netC check = (Except.error (OpError.validation e1), []) ∧
    tmsUpdate netU id check2 = (Except.error (OpError.validation e2), []) ∧
    tmsStatusReportList netL rl = (Except.error (OpError.validation e3), []) ∧
    tmsStatusReportById netB id2 rb = (Except.error (OpError.validation e4), []) ∧
    tmsPerformanceReport netP id3 rp = (Except.error (OpError.validation e5), []) := by
  refine ⟨?_, ?_, ?_, ?_, ?_⟩ <;>
    simp [tmsCreate, tmsUpdate, tmsStatusReportList, tmsStatusReportById,
          tmsPerformanceReport, h1, h2, h3, h4, h5]

/-- Witness for `validation_short_circuits`: Create with Region "mars" (and
the other operations with Order "sideways" values) fails locally with the
validation error and an empty call trace, whatever the transport would
answer. -/
theorem validation_short_circuits_witness :
    tmsCreate (fun _ => Except.error "unreachable")
        { ID := 0, Name := "x", Steps := [], Active := true, ContactIds := [],
          CustomMessage := "", IntegrationIds := [], Interval := 5, Region := "mars",
          SendNotificationWhenDown := 0, SeverityLevel := "high", Tags := "",
          TeamIds := [] } =
      (Except.error (OpError.validation (TmsError.invalidRegion "mars")), []) ∧
    tmsUpdate (fun _ => Except.error "unreachable") 42
        { ID := 0, Name := "", Steps := [], Active := true, ContactIds := [],
          CustomMessage := "", IntegrationIds := [], Interval := 5, Region := "eu",
          SendNotificationWhenDown := 0, SeverityLevel := "low", Tags := "",
          TeamIds := [] } =
      (Except.error (OpError.validation TmsError.invalidName), []) ∧
    tmsStatusReportList (R := Unit) (fun _ => Except.error "unreachable")
        { From := none, To := none, Order := "sideways", Limit := none,
          Offset := none, OmitEmpty := false } =
      (Except.error (OpError.validation (TmsError.invalidOrder "sideways")), []) ∧
    tmsStatusReportById (R := Unit) (fun _ => Except.error "unreachable") 7
        { From := none, To := none, Order := "sideways" } =
      (Except.error (OpError.validation (TmsError.invalidOrder "sideways")), []) ∧
    tmsPerformanceReport (R := Unit) (fun _ => Except.error "unreachable") 9
        { From := none, To := none, Order := "", IncludeUptime := false,
          Resolution := "year" } =
      (Except.error (OpError.validation (TmsError.invalidResolution "year")), []) :=
  validation_short_circuits _ _ _ _ _ _ _ _ _ _ _ _ _ _ _ _ _ _
    (by decide) (by decide) (by decide) (by decide) (by decide)

/-- The outcome of one List round trip beyond the transport: `validateErr`
models the result of `validateResponse` (non-2xx turned into an error),
`decodeErr` the error `json.Unmarshal` reports for the body, and
`tmsChecks` the contents of the response envelope's check list after
unmarshalling (empty or only partially filled when decoding failed).
Modelled from the spec: response validation and JSON decoding live in
collaborators whose code is outside this file's source. -/
structure ListOutcome where
  validateErr : Option String
  decodeErr : Option String
  tmsChecks : List TmsCheckResponse
deriving Repr, DecidableEq

/-- `(*TmsCheckService).List` (tms_check.go lines 260-292): build the GET,
perform it, fail on a transport error or a non-2xx response; then unmarshal
the body — the error `json.Unmarshal` returns is assigned and never
consulted (line 283) — and translate whatever checks the envelope holds. -/
def tmsList (net : Call → Except String ListOutcome)
    (param : List (String × String)) : Except OpError (List TmsCheck) × List Call :=
  let c : Call := { method := "GET", path := "/tms/check", body := none, params := param }
  match net c with
  | Except.error e => (Except.error (OpError.transport e), [c])
  | Except.ok out =>
    match out.validateErr with
    | some e => (Except.error (OpError.transport e), [c])
    | none => (Except.ok (out.tmsChecks.map fromTmsCheckResponse), [c])

/-- C4: when the transport succeeds with a 2xx response whose body fails to
decode, List still returns success — the decode error is swallowed and the
caller gets whatever (possibly empty) list the failed unmarshal left
behind. -/
theorem list_swallows_decode_error (net : Call → Except String ListOutcome)
    (param : List (String × String)) (out : ListOutcome) (e : String)
    (hnet : net { method := "GET", path := "/tms/check", body := none, params := param } =
      Except.ok out)
    (hok : out.validateErr = none) (_hbad : out.decodeErr = some e) :
    tmsList net param =
      (Except.ok (out.tmsChecks.map fromTmsCheckResponse),
       [{ method := "GET", path := "/tms/check", body := none, params := param }]) := by
  simp [tmsList, hnet, hok]

/-- Witness for `list_swallows_decode_error`: a 2xx response whose body
reports a decode error still yields a successful empty list. -/
theorem list_swallows_decode_error_witness :
    tmsList
        (fun _ => Except.ok { validateErr := none,
                              decodeErr := some "unexpected end of JSON input",
                              tmsChecks := [] }) [] =
      (Except.ok [],
       [{ method := "GET", path := "/tms/check", body := none, params := [] }]) :=
  list_swallows_decode_error _ []
    { validateErr := none, decodeErr := some "unexpected end of JSON input", tmsChecks := [] }
    "unexpected end of JSON input" rfl rfl rfl

theorem byId_params_keys (tr : TmsStatusReportListByIdRequest) :
    (("from" ∈ tr.GetParams.map Prod.fst) ↔ tr.From.isSome) ∧
    (("to" ∈ tr.GetParams.map Prod.fst) ↔ tr.To.isSome) ∧
    (("order" ∈ tr.GetParams.map Prod.fst) ↔ tr.Order ≠ "") := by
  rcases tr with ⟨f, t, o⟩
  cases f <;> cases t <;> by_cases ho : o = "" <;>
    simp [TmsStatusReportListByIdRequest.GetParams, ho]

theorem list_params_keys (tr : TmsStatusReportListRequest) :
    (("from" ∈ tr.GetParams.map Prod.fst) ↔ tr.From.isSome) ∧
    (("to" ∈ tr.GetParams.map Prod.fst) ↔ tr.To.isSome) ∧
    (("offset" ∈ tr.GetParams.map Prod.fst) ↔ tr.Offset.isSome) ∧
    (("limit" ∈ tr.GetParams.map Prod.fst) ↔ tr.Limit.isSome) ∧
    (("order" ∈ tr.GetParams.map Prod.fst) ↔ tr.Order ≠ "") ∧
    (∀ v, (("omit_empty", v) ∈ tr.GetParams) ↔ (tr.OmitEmpty = true ∧ v = "true")) := by
  rcases tr with ⟨f, t, o, lim, off, oe⟩
  cases f <;> cases t <;> cases lim <;> cases off <;> cases oe <;> by_cases ho : o = "" <;>
    simp [TmsStatusReportListRequest.GetParams, ho]

theorem perf_params_keys (tr : TmsPerformanceReportRequest) :
    (("from" ∈ tr.GetParams.map Prod.fst) ↔ tr.From.isSome) ∧
    (("to" ∈ tr.GetParams.map Prod.fst) ↔ tr.To.isSome) ∧
    (("order" ∈ tr.GetParams.map Prod.fst) ↔ tr.Order ≠ "") ∧
    (("resolution" ∈ tr.GetParams.map Prod.fst) ↔ tr.Resolution ≠ "") ∧
    (∀ v, (("include_uptime", v) ∈ tr.GetParams) ↔ (tr.IncludeUptime = true ∧ v = "true")) := by
  rcases tr with ⟨f, t, o, iu, res⟩
  cases f <;> cases t <;> cases iu <;> by_cases ho : o = "" <;> by_cases hr : res = "" <;>
    simp [TmsPerformanceReportRequest.GetParams, ho, hr]

/-- C7: across the three report-request variants, GetParams emits no key for
an unset optional field (nil From/To/Offset/Limit, empty Order, empty
Resolution), and emits the boolean-flag keys omit_empty and include_uptime
exactly when the flag is set, always with the literal value "true" and
never "false". -/
theorem report_params_omit_unset (rb : TmsStatusReportListByIdRequest)
    (rl : TmsStatusReportListRequest) (rp : TmsPerformanceReportRequest) :
    (("from" ∈ rb.GetParams.map Prod.fst) ↔ rb.From.isSome) ∧
    (("to" ∈ rb.GetParams.map Prod.fst) ↔ rb.To.isSome) ∧
    (("order" ∈ rb.GetParams.map Prod.fst) ↔ rb.Order ≠ "") ∧
    (("from" ∈ rl.GetParams.map Prod.fst) ↔ rl.From.isSome) ∧
    (("to" ∈ rl.GetParams.map Prod.fst) ↔ rl.To.isSome) ∧
    (("offset" ∈ rl.GetParams.map Prod.fst) ↔ rl.Offset.isSome) ∧
    (("limit" ∈ rl.GetParams.map Prod.fst) ↔ rl.Limit.isSome) ∧
    (("order" ∈ rl.GetParams.map Prod.fst) ↔ rl.Order ≠ "") ∧
    (∀ v, (("omit_empty", v) ∈ rl.GetParams) ↔ (rl.OmitEmpty = true ∧ v = "true")) ∧
    (("from" ∈ rp.GetParams.map Prod.fst) ↔ rp.From.isSome) ∧
    (("to" ∈ rp.GetParams.map Prod.fst) ↔ rp.To.isSome) ∧
    (("order" ∈ rp.GetParams.map Prod.fst) ↔ rp.Order ≠ "") ∧
    (("resolution" ∈ rp.GetParams.map Prod.fst) ↔ rp.Resolution ≠ "") ∧
    (∀ v, (("include_uptime", v) ∈ rp.GetParams) ↔ (rp.IncludeUptime = true ∧ v = "true")) :=
  ⟨(byId_params_keys rb).1, (byId_params_keys rb).2.1, (byId_params_keys rb).2.2,
   (list_params_keys rl).1, (list_params_keys rl).2.1, (list_params_keys rl).2.2.1,
   (list_params_keys rl).2.2.2.1, (list_params_keys rl).2.2.2.2.1,
   (list_params_keys rl).2.2.2.2.2,
   (perf_params_keys rp).1, (perf_params_keys rp).2.1, (perf_params_keys rp).2.2.1,
   (perf_params_keys rp).2.2.2.1, (perf_params_keys rp).2.2.2.2⟩
